import Mathlib

/-!
Verification development for the Race Safety Health application
(`src/src/RaceSafetyMVP.jsx`, v4.1 component). The scoring engine, the
filter layer, the constraint gate, the incident log and the template
reset are embedded as pure Lean functions over rational numbers.
-/

namespace RaceSafety

/-- JS: `const clamp = (v, min, max) => Math.min(max, Math.max(min, v))`. -/
def clamp (v lo hi : ℚ) : ℚ := min hi (max lo v)

/-- JS: `const sum = (arr) => arr.reduce((a, b) => a + b, 0)`. -/
def sum (l : List ℚ) : ℚ := l.foldl (fun a b => a + b) 0

/-- JS: `const avg = (arr) => (arr.length ? sum(arr) / arr.length : 0)`. -/
def avg (l : List ℚ) : ℚ := if l.length = 0 then 0 else sum l / (l.length : ℚ)

/-- JS `Math.round` on the rationals that occur here: `⌊x + 1/2⌋`. -/
def jsRound (x : ℚ) : ℤ := ⌊x + 1/2⌋

/-- JS: `const pct = (x) => Math.round(clamp(x * 100, 0, 100))`. -/
def pct (x : ℚ) : ℚ := ((jsRound (clamp (x * 100) 0 100) : ℤ) : ℚ)

/-- Hazard record. `weight` is optional in the source (`h.weight ?? 1`). -/
structure Hazard where
  id : String
  domain : String
  name : String
  S : ℚ
  O : ℚ
  D : ℚ
  controlsActive : ℚ
  weight : Option ℚ
  segmentId : String
  deriving DecidableEq, Repr

/-- Control record (STPA control loop). -/
structure Control where
  id : String
  name : String
  readiness : ℚ
  ucaCount : ℚ
  deriving DecidableEq, Repr

/-- Constraint record (STAMP hard gate). -/
structure Constraint where
  id : String
  statement : String
  critical : Bool
  status : String
  deriving DecidableEq, Repr

/-- Segment record. -/
structure Segment where
  id : String
  name : String
  deriving DecidableEq, Repr

/-- Incident record as built in `logIncident`:
`{ type: incidentType, hazardId: incidentHazardId, ts: Date.now() }`. -/
structure Incident where
  type : String
  hazardId : String
  ts : ℤ
  deriving DecidableEq, Repr

/-- The fixed domain catalog `DOMAINS = DOMAINS_EN`. -/
def DOMAINS : List String :=
  ["Financial", "Organizational", "Health / Sanitary", "Legal", "Operational",
   "Sports", "Public Relations / Publicity", "Human Resources",
   "Environmental", "Security – Threats"]

/-- JS: `function residualRpn(h) { const base = h.S * h.O * h.D;
return base * (1 - clamp(h.controlsActive, 0, 1)) * (h.weight ?? 1); }`. -/
def residualRpn (h : Hazard) : ℚ :=
  h.S * h.O * h.D * (1 - clamp h.controlsActive 0 1) * (h.weight.getD 1)

/-- JS: `domainRiskScore(hazards, domain)` — mean residual RPN of the
hazards in the domain, `0` if there are none. -/
def domainRiskScore (hazards : List Hazard) (domain : String) : ℚ :=
  let hs := hazards.filter (fun h => h.domain == domain)
  if hs.length = 0 then 0 else avg (hs.map residualRpn)

/-- JS: `function normalizeRiskToPct(risk) { return clamp(risk / 10, 0, 100); }`. -/
def normalizeRiskToPct (risk : ℚ) : ℚ := clamp (risk / 10) 0 100

/-- The hard-coded UCA penalty `0.06` in `controlHealthPct`. -/
def penaltyPerUca : ℚ := 6/100

/-- JS: `function controlHealthPct(controls) { if (!controls.length) return 100;
const adjusted = controls.map((c) => clamp(c.readiness - c.ucaCount * 0.06, 0, 1));
return pct(avg(adjusted)); }`. -/
def controlHealthPct (controls : List Control) : ℚ :=
  if controls.length = 0 then 100
  else pct (avg (controls.map (fun c => clamp (c.readiness - c.ucaCount * penaltyPerUca) 0 1)))

/-- Readiness criteria catalog: the criterion ids of `READINESS_CRITERIA`
per domain (labels are irrelevant to scoring and omitted). -/
def READINESS_CRITERIA (d : String) : List String :=
  if d == "Financial" then ["budget", "sponsors", "cashflow"]
  else if d == "Organizational" then ["plan", "comms", "briefings"]
  else if d == "Health / Sanitary" then ["medicalPlan", "aed", "hydration"]
  else if d == "Legal" then ["permits", "insurance", "waivers"]
  else if d == "Operational" then ["traffic", "vendors", "logistics", "signage"]
  else if d == "Sports" then ["courseCert", "timing", "stations"]
  else if d == "Public Relations / Publicity" then ["mediaPlan", "crisis", "athleteInfo"]
  else if d == "Human Resources" then ["staffing", "volunteers", "training"]
  else if d == "Environmental" then ["waste", "trailProtect", "weather"]
  else if d == "Security – Threats" then ["riskAssess", "perimeter", "response"]
  else []

/-- User-entered readiness scores: `{domain: {criterionId: 0..1}}`,
modelled as nested association lists. -/
def CriteriaValues : Type := List (String × List (String × ℚ))

/-- JS optional access `criteriaValues?.[d]?.[c.id]` followed by the
`typeof v === "number"` check: a missing entry yields `none`. -/
def lookupCV (cv : CriteriaValues) (d cid : String) : Option ℚ :=
  match cv.find? (fun p => p.1 == d) with
  | none => none
  | some p => (p.2.find? (fun q => q.1 == cid)).map Prod.snd

/-- JS: `readinessFromCriteria(criteriaMap, criteriaValues)` — readiness per
domain in `0..1`; a domain without criteria scores `0.75`, a missing
criterion value defaults to `0.75`. -/
def readinessFromCriteria (criteriaMap : String → List String) (cv : CriteriaValues)
    (d : String) : ℚ :=
  let crits := criteriaMap d
  if crits.length = 0 then 3/4
  else avg (crits.map (fun cid => (lookupCV cv d cid).getD (3/4)))

/-- JS: `ROLE_DOMAINS[role] || DOMAINS` (object lookup with fallback). -/
def ROLE_DOMAINS (role : String) : List String :=
  if role == "Race Director" then DOMAINS
  else if role == "Operations Lead" then ["Organizational", "Operational", "Sports"]
  else if role == "Medical Lead" then ["Health / Sanitary", "Sports"]
  else if role == "Security Lead" then ["Security – Threats", "Operational"]
  else if role == "PR / Media Lead" then ["Public Relations / Publicity"]
  else if role == "Finance Lead" then ["Financial"]
  else if role == "HR / Volunteers Lead" then ["Human Resources", "Organizational"]
  else if role == "Environmental Lead" then ["Environmental"]
  else if role == "Legal / Compliance Lead" then ["Legal"]
  else if role == "Sports / Course Lead" then ["Sports", "Operational", "Environmental"]
  else DOMAINS

/-- JS: `ROLE_CONTROLS[role]` — `none` models both the explicit `null`
(Race Director) and a missing key; the app treats either as "show all". -/
def ROLE_CONTROLS (role : String) : Option (List String) :=
  if role == "Race Director" then none
  else if role == "Operations Lead" then
    some ["Traffic / Course Separation", "Crowd Flow at Start/Finish"]
  else if role == "Medical Lead" then
    some ["Heat / Cold Protocol", "Medical Response & AED coverage"]
  else if role == "Security Lead" then
    some ["Security Screening Perimeter", "Traffic / Course Separation"]
  else if role == "PR / Media Lead" then some []
  else if role == "Finance Lead" then some []
  else if role == "HR / Volunteers Lead" then some []
  else if role == "Environmental Lead" then some ["Heat / Cold Protocol"]
  else if role == "Legal / Compliance Lead" then some []
  else if role == "Sports / Course Lead" then
    some ["Trail Sweep / Search & Rescue", "Crowd Flow at Start/Finish"]
  else none

/-- JS: `const filteredControls = visibleControls == null ? controls :
controls.filter((c) => visibleControls.includes(c.name))`. -/
def filteredControls (role : String) (controls : List Control) : List Control :=
  match ROLE_CONTROLS role with
  | none => controls
  | some names => controls.filter (fun c => names.contains c.name)

/-- JS: `hazards.filter((h) => { if (selectedSegment && h.segmentId !==
selectedSegment) return false; if (selectedDomain && h.domain !==
selectedDomain) return false; if (!visibleDomains.includes(h.domain))
return false; return true; })`. -/
def filteredHazards (hazards : List Hazard) (selectedSegment selectedDomain : Option String)
    (visibleDomains : List String) : List Hazard :=
  hazards.filter (fun h =>
    (match selectedSegment with | none => true | some s => h.segmentId == s) &&
    (match selectedDomain with | none => true | some d => h.domain == d) &&
    visibleDomains.contains h.domain)

/-- JS: `const riskByDomain = DOMAINS.reduce((acc, d) => { acc[d] =
normalizeRiskToPct(domainRiskScore(hazards, d)); return acc; }, {})` —
the object is modelled as a key/value list built in insertion order. -/
def riskByDomain (hazards : List Hazard) : List (String × ℚ) :=
  DOMAINS.foldl (fun acc d => acc ++ [(d, normalizeRiskToPct (domainRiskScore hazards d))]) []

/-- JS: `const riskLoadPct = clamp(avg(Object.values(riskByDomain)), 0, 100)`. -/
def riskLoadPct (hazards : List Hazard) : ℚ :=
  clamp (avg ((riskByDomain hazards).map Prod.snd)) 0 100

/-- JS: `const anyCriticalFail = constraints.some((c) => c.critical &&
c.status === "fail")`. -/
def anyCriticalFail (constraints : List Constraint) : Bool :=
  constraints.any (fun c => c.critical && c.status == "fail")

/-- JS: `const readinessPct = pct(avg(Object.values(readiness)))`, where
`readiness = readinessFromCriteria(READINESS_CRITERIA, criteriaValues)`
has one entry per domain in `DOMAINS` order. -/
def readinessPctOf (cv : CriteriaValues) : ℚ :=
  pct (avg (DOMAINS.map (readinessFromCriteria READINESS_CRITERIA cv)))

/-- JS: `const holisticPct = clamp((readinessPct * 0.4) + (controlPct * 0.3)
+ ((100 - riskLoadPct) * 0.3), 0, 100)`. -/
def holisticPctOf (readinessPct controlPct riskLoad : ℚ) : ℚ :=
  clamp (readinessPct * (4/10) + controlPct * (3/10) + (100 - riskLoad) * (3/10)) 0 100

/-- The status rendered by the gauge. -/
inductive GaugeStatus where
  | healthy
  | watch
  | notHealthy
  | constraintFail
  deriving DecidableEq, Repr

/-- The trend classification rendered under the gauge title. -/
inductive TrendLabel where
  | improving
  | degrading
  | stable
  deriving DecidableEq, Repr

/-- JS (`SafetyGauge`): `const v = clamp(value, 0, 100)`. -/
def gaugeV (value : ℚ) : ℚ := clamp value 0 100

/-- JS (`SafetyGauge`): `const displayValue = lockedRed ? 0 : v` — the value
the needle indicates. -/
def displayValue (value : ℚ) (lockedRed : Bool) : ℚ :=
  if lockedRed then 0 else gaugeV value

/-- JS (`SafetyGauge`): the rendered status text,
`lockedRed ? t("constraintFail") : status` where `statusKey =
lockedRed || v < 50 ? "notHealthy" : v < 75 ? "watch" : "healthy"`. -/
def renderedStatus (value : ℚ) (lockedRed : Bool) : GaugeStatus :=
  if lockedRed then .constraintFail
  else if gaugeV value < 50 then .notHealthy
  else if gaugeV value < 75 then .watch
  else .healthy

/-- JS (`SafetyGauge`): `const trend = prevValue == null ? 0 : v - prevValue`. -/
def trendOf (value : ℚ) (prevValue : Option ℚ) : ℚ :=
  match prevValue with
  | none => 0
  | some p => gaugeV value - p

/-- JS (`SafetyGauge`): `const trendLabel = trend > 1 ? t("improving") :
trend < -1 ? t("degrading") : t("stable")`. -/
def trendLabelOf (trend : ℚ) : TrendLabel :=
  if trend > 1 then .improving
  else if trend < -1 then .degrading
  else .stable

/-- Keys of the object passed to `saveLS` by the persistence effect:
`saveLS({ lang, templateKey, role, selectedSegment, selectedDomain,
hazards, controls, constraints, criteriaValues, incidents })`. -/
def saveLSKeys : List String :=
  ["lang", "templateKey", "role", "selectedSegment", "selectedDomain",
   "hazards", "controls", "constraints", "criteriaValues", "incidents"]

/-- The gauge is invoked with `prevValue={saved?.holisticPct ?? null}`, but
the object written by `saveLS` has no `holisticPct` member (see
`saveLSKeys`), so the optional access always yields `null`. -/
def prevValueFromSaved : Option ℚ := none

/-- JS: `const logIncident = () => { if (!incidentHazardId) return;
setIncidents((prev) => [{ type, hazardId, ts }, ...prev].slice(0, 20));
setHazards((prev) => prev.map((h) => h.id === incidentHazardId ?
{ ...h, O: clamp(h.O + 1, 1, 10) } : h)); }` — returned as the new
(incident log, hazard list) pair. -/
def logIncident (incidentHazardId incidentType : String) (ts : ℤ)
    (incidents : List Incident) (hazards : List Hazard) :
    List Incident × List Hazard :=
  if incidentHazardId = "" then (incidents, hazards)
  else
    (({ type := incidentType, hazardId := incidentHazardId, ts := ts } :: incidents).take 20,
     hazards.map (fun h =>
       if h.id == incidentHazardId then { h with O := clamp (h.O + 1) 1 10 } else h))

/-- Template preset: `{label, hazards[], constraints[], segments[]}`. -/
structure Template where
  label : String
  hazards : List Hazard
  constraints : List Constraint
  segments : List Segment
  deriving Repr

/-- The three template keys of `TEMPLATES`. -/
inductive TemplateKey where
  | roadShort
  | roadMarathon
  | trailUltra
  deriving DecidableEq, Repr

/-- The `TEMPLATES` catalog, transcribed from the source. -/
def TEMPLATES : TemplateKey → Template
  | .roadShort =>
    { label := "Road 5K / 10K",
      hazards :=
        [⟨"H1", "Health / Sanitary", "Heat illness / dehydration", 8, 4, 4, 8/10, some (13/10), "SEG-START"⟩,
         ⟨"H2", "Operational", "Course misdirection at junctions", 5, 4, 5, 7/10, some 1, "SEG-2"⟩,
         ⟨"H3", "Security – Threats", "Unauthorized vehicle access", 9, 2, 6, 7/10, some (14/10), "SEG-ALL"⟩,
         ⟨"H4", "Sports", "Runner crowding at start", 6, 5, 3, 9/10, some 1, "SEG-START"⟩,
         ⟨"H5", "Environmental", "Sudden rain / slippery road", 6, 3, 5, 7/10, some 1, "SEG-3"⟩,
         ⟨"H6", "Human Resources", "Volunteer no-shows", 5, 4, 4, 6/10, some (9/10), "SEG-START"⟩],
      constraints :=
        [⟨"S1", "Heat index <= 32°C OR Heat Protocol Level 2 active", true, "pass"⟩,
         ⟨"S2", "No open vehicle access on any course segment", true, "pass"⟩,
         ⟨"S3", "AED coverage at start/finish + roving medics", true, "pass"⟩],
      segments :=
        [⟨"SEG-START", "Start/Finish Zone"⟩, ⟨"SEG-1", "KM 0–1"⟩, ⟨"SEG-2", "KM 1–3"⟩,
         ⟨"SEG-3", "KM 3–5"⟩, ⟨"SEG-ALL", "Whole course"⟩] }
  | .roadMarathon =>
    { label := "Road Half / Marathon",
      hazards :=
        [⟨"H1", "Health / Sanitary", "Heat illness / dehydration", 9, 5, 4, 75/100, some (15/10), "SEG-ALL"⟩,
         ⟨"H2", "Sports", "Cardiac emergency", 10, 2, 7, 7/10, some (16/10), "SEG-ALL"⟩,
         ⟨"H3", "Operational", "Water station depletion", 8, 3, 6, 7/10, some (13/10), "SEG-10"⟩,
         ⟨"H4", "Operational", "Course misdirection at junctions", 6, 4, 6, 7/10, some (11/10), "SEG-5"⟩,
         ⟨"H5", "Security – Threats", "Unauthorized vehicle access", 10, 2, 6, 65/100, some (15/10), "SEG-ALL"⟩,
         ⟨"H6", "Environmental", "Lightning / severe storm", 10, 2, 7, 7/10, some (13/10), "SEG-ALL"⟩,
         ⟨"H7", "Human Resources", "Volunteer fatigue / shift gaps", 6, 5, 4, 6/10, some 1, "SEG-START"⟩],
      constraints :=
        [⟨"S1", "Heat index <= 30°C OR Start-time adjusted / heat protocol active", true, "pass"⟩,
         ⟨"S2", "AED spacing <= 1.5km and ALS on course", true, "pass"⟩,
         ⟨"S3", "No open vehicle access on any course segment", true, "pass"⟩,
         ⟨"S4", "Water points every <= 3km", true, "pass"⟩,
         ⟨"S5", "Lightning >10km away", true, "pass"⟩],
      segments :=
        [⟨"SEG-START", "Start/Finish Zone"⟩, ⟨"SEG-5", "KM 3–7 Junction Cluster"⟩,
         ⟨"SEG-10", "KM 9–12 Long straight"⟩, ⟨"SEG-20", "KM 18–22 Exposed area"⟩,
         ⟨"SEG-ALL", "Whole course"⟩] }
  | .trailUltra =>
    { label := "Trail / Ultra",
      hazards :=
        [⟨"H1", "Sports", "Falls on technical terrain", 8, 5, 6, 6/10, some (14/10), "SEG-TECH"⟩,
         ⟨"H2", "Environmental", "Rapid weather change (cold/rain)", 9, 4, 7, 6/10, some (15/10), "SEG-RIDGE"⟩,
         ⟨"H3", "Operational", "Runner lost off-course", 9, 3, 7, 65/100, some (14/10), "SEG-ALL"⟩,
         ⟨"H4", "Health / Sanitary", "Hypothermia / dehydration", 9, 4, 6, 6/10, some (15/10), "SEG-ALL"⟩,
         ⟨"H5", "Security – Threats", "Delayed rescue access", 9, 3, 8, 55/100, some (16/10), "SEG-REMOTE"⟩,
         ⟨"H6", "Human Resources", "Aid station understaffing", 7, 4, 5, 6/10, some (12/10), "SEG-AID"⟩],
      constraints :=
        [⟨"S1", "Sweep team contact interval <= 30 min", true, "pass"⟩,
         ⟨"S2", "Mandatory gear check active", true, "pass"⟩,
         ⟨"S3", "Comms coverage on all segments", true, "pass"⟩,
         ⟨"S4", "Lightning / storm thresholds respected", true, "pass"⟩],
      segments :=
        [⟨"SEG-START", "Start/Finish Zone"⟩, ⟨"SEG-TECH", "Technical descent"⟩,
         ⟨"SEG-RIDGE", "Exposed ridge"⟩, ⟨"SEG-REMOTE", "Remote valley"⟩,
         ⟨"SEG-AID", "Aid Stations"⟩, ⟨"SEG-ALL", "Whole course"⟩] }

/-- JS: `const INITIAL_CONTROLS = [...]`. -/
def INITIAL_CONTROLS : List Control :=
  [⟨"C1", "Heat / Cold Protocol", 7/10, 1⟩,
   ⟨"C2", "Traffic / Course Separation", 8/10, 0⟩,
   ⟨"C3", "Medical Response & AED coverage", 75/100, 1⟩,
   ⟨"C4", "Crowd Flow at Start/Finish", 85/100, 0⟩,
   ⟨"C5", "Security Screening Perimeter", 6/10, 2⟩,
   ⟨"C6", "Trail Sweep / Search & Rescue", 65/100, 1⟩]

/-- The mutable state of the `RaceSafetyMVP` component that the claims
concern (language and incident-form selections omitted). -/
structure AppState where
  templateKey : TemplateKey
  role : String
  selectedSegment : Option String
  selectedDomain : Option String
  hazards : List Hazard
  controls : List Control
  constraints : List Constraint
  criteriaValues : CriteriaValues
  incidents : List Incident

/-- The segment collection shown by the app: `template.segments`, read
directly off the active template. -/
def stateSegments (st : AppState) : List Segment :=
  (TEMPLATES st.templateKey).segments

/-- The template-reset effect: `useEffect(() => { setHazards(template.hazards);
setConstraints(template.constraints); setSelectedSegment(null);
setSelectedDomain(null); }, [templateKey])`, together with the
`setTemplateKey` update that triggers it. -/
def selectTemplate (k : TemplateKey) (st : AppState) : AppState :=
  { st with
    templateKey := k
    hazards := (TEMPLATES k).hazards
    constraints := (TEMPLATES k).constraints
    selectedSegment := none
    selectedDomain := none }

/-- App-level risk load: computed from the full `hazards` collection,
not from `filteredHazards`. -/
def appRiskLoadPct (st : AppState) : ℚ := riskLoadPct st.hazards

/-- App-level control health: `controlHealthPct(filteredControls)`. -/
def appControlPct (st : AppState) : ℚ :=
  controlHealthPct (filteredControls st.role st.controls)

/-- App-level readiness percentage. -/
def appReadinessPct (st : AppState) : ℚ := readinessPctOf st.criteriaValues

/-- App-level holistic percentage (reads hazards, controls and readiness
scores only — never the constraints). -/
def appHolisticPct (st : AppState) : ℚ :=
  holisticPctOf (appReadinessPct st) (appControlPct st) (appRiskLoadPct st)

theorem clamp_le_hi (v lo hi : ℚ) : clamp v lo hi ≤ hi := min_le_left _ _

theorem lo_le_clamp (v lo hi : ℚ) (h : lo ≤ hi) : lo ≤ clamp v lo hi :=
  le_min h (le_max_left _ _)

theorem clamp_eq_of (v lo hi : ℚ) (h1 : lo ≤ v) (h2 : v ≤ hi) : clamp v lo hi = v := by
  unfold clamp
  rw [max_eq_right h1, min_eq_right h2]

theorem pct_nonneg (x : ℚ) : 0 ≤ pct x := by
  unfold pct jsRound
  have h0 : (0:ℚ) ≤ clamp (x * 100) 0 100 := lo_le_clamp _ _ _ (by norm_num)
  have h : (0:ℤ) ≤ ⌊clamp (x * 100) 0 100 + 1/2⌋ := Int.floor_nonneg.mpr (by linarith)
  exact_mod_cast h

theorem pct_le_100 (x : ℚ) : pct x ≤ 100 := by
  unfold pct jsRound
  have h1 : clamp (x * 100) 0 100 ≤ 100 := clamp_le_hi _ _ _
  have h2 : ⌊clamp (x * 100) 0 100 + 1/2⌋ ≤ ⌊(201:ℚ)/2⌋ := Int.floor_le_floor (by linarith)
  have h3 : (⌊(201:ℚ)/2⌋ : ℤ) = 100 := by norm_num
  have h4 : ⌊clamp (x * 100) 0 100 + 1/2⌋ ≤ (100:ℤ) := by omega
  exact_mod_cast h4

theorem controlHealthPct_bounds (cs : List Control) :
    0 ≤ controlHealthPct cs ∧ controlHealthPct cs ≤ 100 := by
  unfold controlHealthPct
  split
  · norm_num
  · exact ⟨pct_nonneg _, pct_le_100 _⟩

/-- C2: every score the engine emits (`riskLoadPct`, `controlHealthPct`,
`readinessPct`, `holisticHealth`) is in `[0,100]` for any state, and the
empty-collection aggregates return the neutral values `100` (control
health over zero controls) and `0` (domain risk over zero hazards). -/
theorem scores_bounded (st : AppState) (d : String) :
    (0 ≤ appRiskLoadPct st ∧ appRiskLoadPct st ≤ 100) ∧
    (0 ≤ appControlPct st ∧ appControlPct st ≤ 100) ∧
    (0 ≤ appReadinessPct st ∧ appReadinessPct st ≤ 100) ∧
    (0 ≤ appHolisticPct st ∧ appHolisticPct st ≤ 100) ∧
    controlHealthPct [] = 100 ∧
    domainRiskScore [] d = 0 := by
  refine ⟨⟨?_, ?_⟩, controlHealthPct_bounds _, ⟨pct_nonneg _, pct_le_100 _⟩, ⟨?_, ?_⟩, ?_, ?_⟩
  · exact lo_le_clamp _ _ _ (by norm_num)
  · exact clamp_le_hi _ _ _
  · exact lo_le_clamp _ _ _ (by norm_num)
  · exact clamp_le_hi _ _ _
  · simp [controlHealthPct]
  · simp [domainRiskScore]

/-- C8: under the data-model invariants (`controlsActive ∈ [0,1]`, a present
positive weight), `residualRpn` is exactly
`S * O * D * (1 - controlsActive) * weight`. -/
theorem residualRpn_formula (h : Hazard) (w : ℚ)
    (h0 : 0 ≤ h.controlsActive) (h1 : h.controlsActive ≤ 1)
    (hw : h.weight = some w) (hwpos : 0 < w) :
    residualRpn h = h.S * h.O * h.D * (1 - h.controlsActive) * w := by
  unfold residualRpn
  rw [clamp_eq_of _ _ _ h0 h1, hw]
  rfl

/-- Witness for C8: the `roadShort` hazard `H1`
(`{S:8, O:4, D:4, controlsActive:0.8, weight:1.3}`) satisfies the
invariants and has residual RPN `33.28 = 832/25`. -/
theorem residualRpn_formula_witness :
    (0 : ℚ) ≤ (8:ℚ)/10 ∧ (8:ℚ)/10 ≤ 1 ∧ (0:ℚ) < 13/10 ∧
    residualRpn ⟨"H1", "Health / Sanitary", "Heat illness / dehydration",
      8, 4, 4, 8/10, some (13/10), "SEG-START"⟩ = 832/25 := by
  refine ⟨by norm_num, by norm_num, by norm_num, ?_⟩
  rw [residualRpn_formula _ (13/10) (by norm_num) (by norm_num) rfl (by norm_num)]
  norm_num

/-- C9 (code bug): the persistence effect saves the object with keys
`saveLSKeys` only — `holisticPct` is never persisted even though the gauge
is invoked with `prevValue={saved?.holisticPct ?? null}`. Consequently the
previous value is always `null`, the trend is always `0` and the rendered
trend label is always `Stable`, for every current value. -/
theorem trend_prev_value_never_persisted (v : ℚ) :
    saveLSKeys.contains "holisticPct" = false ∧
    trendOf v prevValueFromSaved = 0 ∧
    trendLabelOf (trendOf v prevValueFromSaved) = TrendLabel.stable := by
  refine ⟨by decide, rfl, ?_⟩
  norm_num [trendOf, prevValueFromSaved, trendLabelOf]

/-- C10: selecting template `k` replaces the hazard and constraint
collections by the template defaults, makes the segment collection equal
to the template segments, clears both filters, and leaves the controls and the
readiness-score map untouched. -/
theorem selectTemplate_reset (k : TemplateKey) (st : AppState) :
    (selectTemplate k st).hazards = (TEMPLATES k).hazards ∧
    (selectTemplate k st).constraints = (TEMPLATES k).constraints ∧
    stateSegments (selectTemplate k st) = (TEMPLATES k).segments ∧
    (selectTemplate k st).selectedSegment = none ∧
    (selectTemplate k st).selectedDomain = none ∧
    (selectTemplate k st).controls = st.controls ∧
    (selectTemplate k st).criteriaValues = st.criteriaValues :=
  ⟨rfl, rfl, rfl, rfl, rfl, rfl, rfl⟩

/-- C1: with a failing critical constraint present, the rendered gauge
status is `ConstraintFail` and the needle value is forced to `0`, while
the holistic computation itself never reads the constraints and stays the
same for any constraint collection. -/
theorem gate_override_display (st : AppState)
    (hc : ∃ c ∈ st.constraints, c.critical = true ∧ c.status = "fail") :
    renderedStatus (appHolisticPct st) (anyCriticalFail st.constraints) =
      GaugeStatus.constraintFail ∧
    displayValue (appHolisticPct st) (anyCriticalFail st.constraints) = 0 ∧
    (∀ cs : List Constraint,
      appHolisticPct { st with constraints := cs } = appHolisticPct st) := by
  have hb : anyCriticalFail st.constraints = true := by
    unfold anyCriticalFail
    rw [List.any_eq_true]
    obtain ⟨c, hmem, h1, h2⟩ := hc
    exact ⟨c, hmem, by simp [h1, h2]⟩
  exact ⟨by simp [renderedStatus, hb], by simp [displayValue, hb], fun cs => rfl⟩

/-- State used in witnesses: the `roadShort` template with its first
critical constraint switched to `fail`. -/
def demoFailState : AppState :=
  { templateKey := .roadShort
    role := "Race Director"
    selectedSegment := none
    selectedDomain := none
    hazards := (TEMPLATES .roadShort).hazards
    controls := INITIAL_CONTROLS
    constraints :=
      [⟨"S1", "Heat index <= 32°C OR Heat Protocol Level 2 active", true, "fail"⟩,
       ⟨"S2", "No open vehicle access on any course segment", true, "pass"⟩,
       ⟨"S3", "AED coverage at start/finish + roving medics", true, "pass"⟩]
    criteriaValues := []
    incidents := [] }

/-- Witness for C1: in `demoFailState` the failed critical constraint `S1`
forces the rendered status to `ConstraintFail` and the needle to `0`. -/
theorem gate_override_display_witness :
    (∃ c ∈ demoFailState.constraints, c.critical = true ∧ c.status = "fail") ∧
    renderedStatus (appHolisticPct demoFailState) (anyCriticalFail demoFailState.constraints) =
      GaugeStatus.constraintFail ∧
    displayValue (appHolisticPct demoFailState) (anyCriticalFail demoFailState.constraints) = 0 := by
  have hc : ∃ c ∈ demoFailState.constraints, c.critical = true ∧ c.status = "fail" := by
    refine ⟨⟨"S1", "Heat index <= 32°C OR Heat Protocol Level 2 active", true, "fail"⟩,
      ?_, rfl, rfl⟩
    simp [demoFailState]
  exact ⟨hc, (gate_override_display demoFailState hc).1,
    (gate_override_display demoFailState hc).2.1⟩

theorem foldl_pairs_map_snd (f : String → ℚ) :
    ∀ (l : List String) (acc : List (String × ℚ)),
      (l.foldl (fun acc d => acc ++ [(d, f d)]) acc).map Prod.snd =
        acc.map Prod.snd ++ l.map f
  | [], acc => by simp
  | d :: l, acc => by
    rw [List.foldl_cons, foldl_pairs_map_snd f l, List.map_append]
    simp

theorem riskByDomain_values (hz : List Hazard) :
    (riskByDomain hz).map Prod.snd =
      DOMAINS.map (fun d => normalizeRiskToPct (domainRiskScore hz d)) := by
  unfold riskByDomain
  rw [foldl_pairs_map_snd]
  simp

/-- C3 (amended): `riskLoadPct` equals
`clamp(mean(clamp(domainRisk(d)/10, 0, 100) for d in ALL domains), 0, 100)`:
each domain value is scaled by `1/10` and clamped to `[0,100]` on its own
(`normalizeRiskToPct`) before the mean is taken and clamped again. There
is no `100 -` inversion — that is applied later inside the holistic
blend — and the aggregate is computed from the full hazard collection,
unaffected by the segment/domain filters. -/
theorem riskLoadPct_amended (st : AppState) (segF domF : Option String) :
    appRiskLoadPct { st with selectedSegment := segF, selectedDomain := domF } =
      appRiskLoadPct st ∧
    appRiskLoadPct st =
      clamp (avg (DOMAINS.map (fun d => clamp (domainRiskScore st.hazards d / 10) 0 100))) 0 100 := by
  refine ⟨rfl, ?_⟩
  unfold appRiskLoadPct riskLoadPct
  rw [riskByDomain_values]
  rfl

/-- Counterexample for C3: for the empty hazard collection the code yields
`riskLoadPct = 0`, whereas the claimed `100 - clamp(mean(...), 0, 100)`
formula yields `100`. -/
theorem riskLoadPct_not_inverted_cex :
    riskLoadPct ([] : List Hazard) ≠
      100 - clamp (avg ((riskByDomain ([] : List Hazard)).map Prod.snd)) 0 100 := by
  rw [riskLoadPct, riskByDomain_values]
  norm_num [DOMAINS, domainRiskScore, normalizeRiskToPct, avg, sum, clamp]

/-- C4 (amended): a hazard is visible iff its domain is among the domains
visible to the role, the domain filter is unset or equals its domain, and the
segment filter is unset or equals its `segmentId` exactly — there is no
wildcard exception, so `SEG-ALL` hazards are hidden under any other
segment filter. -/
theorem filteredHazards_amended (hz : List Hazard) (role : String)
    (segF domF : Option String) (h : Hazard) :
    h ∈ filteredHazards hz segF domF (ROLE_DOMAINS role) ↔
      h ∈ hz ∧ h.domain ∈ ROLE_DOMAINS role ∧
        (domF = none ∨ domF = some h.domain) ∧
        (segF = none ∨ segF = some h.segmentId) := by
  unfold filteredHazards
  rw [List.mem_filter]
  cases segF <;> cases domF <;>
    simp [Bool.and_eq_true, beq_iff_eq, List.contains_iff_exists_mem_beq] <;>
    tauto

/-- The `roadShort` whole-course hazard `H3` (`segmentId = "SEG-ALL"`). -/
def h3road : Hazard :=
  ⟨"H3", "Security – Threats", "Unauthorized vehicle access",
   9, 2, 6, 7/10, some (14/10), "SEG-ALL"⟩

/-- Counterexample for C4: under the segment filter `SEG-START` and the
all-domain role, the wildcard hazard `H3` (`segmentId = "SEG-ALL"`) is NOT
in the visible set, although the claim says wildcard hazards are always
visible. -/
theorem wildcard_hazard_filtered_out_cex :
    filteredHazards [h3road] (some "SEG-START") none (ROLE_DOMAINS "Race Director") = [] ∧
    h3road.segmentId = "SEG-ALL" ∧
    h3road.domain ∈ ROLE_DOMAINS "Race Director" := by
  refine ⟨?_, rfl, ?_⟩
  · simp [filteredHazards, h3road]
  · simp [ROLE_DOMAINS, DOMAINS, h3road]

/-- The `roadShort` hazard `H1` with `O = 4`, used as a concrete input. -/
def demoH1 : Hazard :=
  ⟨"H1", "Health / Sanitary", "Heat illness / dehydration",
   8, 4, 4, 8/10, some (13/10), "SEG-START"⟩

/-- C5: for a non-empty hazard id, `logIncident` prepends exactly one new
incident record at the head of the log and truncates it to 20 entries,
keeps the hazard list the same length, leaves every hazard with a
different id unchanged, and replaces each hazard carrying the id by the
same record with `O` set to `clamp(O + 1, 1, 10)` (so `O = 4` becomes `5`,
and the result never exceeds `10`). -/
theorem logIncident_success (hz : List Hazard) (inc : List Incident)
    (hid t : String) (ts : ℤ) (hne : hid ≠ "") :
    (logIncident hid t ts inc hz).1.head? = some ⟨t, hid, ts⟩ ∧
    (logIncident hid t ts inc hz).1 = (⟨t, hid, ts⟩ :: inc).take 20 ∧
    (logIncident hid t ts inc hz).2.length = hz.length ∧
    (∀ (i : ℕ) (h : Hazard), hz[i]? = some h → h.id ≠ hid →
      (logIncident hid t ts inc hz).2[i]? = some h) ∧
    (∀ (i : ℕ) (h : Hazard), hz[i]? = some h → h.id = hid →
      (logIncident hid t ts inc hz).2[i]? = some { h with O := clamp (h.O + 1) 1 10 } ∧
      (h.O = 4 → clamp (h.O + 1) 1 10 = 5) ∧
      clamp (h.O + 1) 1 10 ≤ 10) := by
  unfold logIncident
  rw [if_neg hne]
  refine ⟨?_, rfl, by simp, ?_, ?_⟩
  · rw [show (20:ℕ) = 19 + 1 from rfl, List.take_succ_cons]
    rfl
  · intro i h hget hne2
    have hb : (h.id == hid) = false := beq_eq_false_iff_ne.mpr hne2
    rw [List.getElem?_map, hget]
    simp [hb]
    exact fun hx => absurd hx hne2
  · intro i h hget heq
    have hb : (h.id == hid) = true := beq_iff_eq.mpr heq
    refine ⟨?_, fun h4 => by rw [h4]; norm_num [clamp], clamp_le_hi _ _ _⟩
    rw [List.getElem?_map, hget]
    simp [hb]
    exact fun hx => absurd heq hx

/-- Witness for C5: logging an incident against the `roadShort` hazard `H1`
(`O = 4`) puts the new incident at the head of the log and bumps `O` to 5. -/
theorem logIncident_success_witness :
    ("H1" : String) ≠ "" ∧
    (logIncident "H1" "Heat illness" 0 [] [demoH1]).1.head? =
      some ⟨"Heat illness", "H1", 0⟩ ∧
    (logIncident "H1" "Heat illness" 0 [] [demoH1]).2[0]? =
      some { demoH1 with O := clamp (demoH1.O + 1) 1 10 } ∧
    clamp (demoH1.O + 1) 1 10 = 5 := by
  have hne : ("H1" : String) ≠ "" := by decide
  have h := logIncident_success [demoH1] [] "H1" "Heat illness" 0 hne
  exact ⟨hne, h.1, (h.2.2.2.2 0 demoH1 rfl rfl).1, (h.2.2.2.2 0 demoH1 rfl rfl).2.1 rfl⟩

/-- Counterexample for C6: applying an incident with the unresolvable id
`"HX"` raises no error and leaves the hazards unchanged, but it still
prepends an incident record referencing the nonexistent hazard — the log
is NOT unchanged as claimed. -/
theorem logIncident_stale_id_cex :
    (logIncident "HX" "Heat illness" 0 [] [demoH1]).1 = [⟨"Heat illness", "HX", 0⟩] ∧
    (logIncident "HX" "Heat illness" 0 [] [demoH1]).2 = [demoH1] ∧
    demoH1.id ≠ "HX" := by
  refine ⟨?_, ?_, by simp [demoH1]⟩
  · rw [logIncident, if_neg (by decide)]
    rfl
  · rw [logIncident, if_neg (by decide)]
    simp [demoH1]

/-- C6 (amended): `logIncident` is a silent no-op only when the hazard id is
the empty string; for a non-empty id that does not resolve in the hazard
collection, no error is raised and no hazard changes, but an incident
record referencing the nonexistent hazard is still prepended (and the log
truncated to 20). -/
theorem logIncident_stale_id_amended :
    (∀ (t : String) (ts : ℤ) (inc : List Incident) (hz : List Hazard),
      logIncident "" t ts inc hz = (inc, hz)) ∧
    (∀ (hid t : String) (ts : ℤ) (inc : List Incident) (hz : List Hazard),
      hid ≠ "" → (∀ h ∈ hz, h.id ≠ hid) →
      (logIncident hid t ts inc hz).2 = hz ∧
      (logIncident hid t ts inc hz).1 = (⟨t, hid, ts⟩ :: inc).take 20) := by
  constructor
  · intro t ts inc hz
    rw [logIncident, if_pos rfl]
  · intro hid t ts inc hz hne hall
    rw [logIncident, if_neg hne]
    refine ⟨?_, rfl⟩
    have hmap : hz.map (fun h =>
        if h.id == hid then { h with O := clamp (h.O + 1) 1 10 } else h) = hz.map id := by
      refine List.map_congr_left (fun a ha => ?_)
      have hb : (a.id == hid) = false := beq_eq_false_iff_ne.mpr (hall a ha)
      simp [hb]
    rw [hmap, List.map_id]

/-- Witness for C6 (amended): with hazard collection `[H1]` and the stale id
`"HX"`, the hazards are unchanged and the log gains exactly the dangling
record. -/
theorem logIncident_stale_id_amended_witness :
    ("HX" : String) ≠ "" ∧
    demoH1.id ≠ "HX" ∧
    (logIncident "HX" "Heat illness" 0 [] [demoH1]).2 = [demoH1] ∧
    (logIncident "HX" "Heat illness" 0 [] [demoH1]).1 =
      ((⟨"Heat illness", "HX", 0⟩ : Incident) :: []).take 20 := by
  have hall : ∀ h ∈ [demoH1], h.id ≠ "HX" := by
    intro h hm
    rw [List.mem_singleton] at hm
    subst hm
    simp [demoH1]
  have h := logIncident_stale_id_amended.2 "HX" "Heat illness" 0 [] [demoH1] (by decide) hall
  exact ⟨by decide, hall demoH1 (List.mem_singleton_self _), h.1, h.2⟩

theorem foldl_add_nonneg :
    ∀ (l : List ℚ) (a : ℚ), 0 ≤ a → (∀ x ∈ l, 0 ≤ x) →
      0 ≤ l.foldl (fun a b => a + b) a
  | [], a, ha, _ => ha
  | x :: l, a, ha, h => by
    rw [List.foldl_cons]
    exact foldl_add_nonneg l (a + x)
      (by have := h x (List.mem_cons_self _ _); linarith)
      (fun y hy => h y (List.mem_cons_of_mem _ hy))

theorem foldl_add_le :
    ∀ (l : List ℚ) (a c : ℚ), (∀ x ∈ l, x ≤ c) →
      l.foldl (fun a b => a + b) a ≤ a + l.length * c
  | [], a, c, _ => by simp
  | x :: l, a, c, h => by
    rw [List.foldl_cons]
    have h1 := foldl_add_le l (a + x) c (fun y hy => h y (List.mem_cons_of_mem _ hy))
    have h2 := h x (List.mem_cons_self _ _)
    have h3 : ((x :: l).length : ℚ) = (l.length : ℚ) + 1 := by push_cast [List.length_cons]; ring
    rw [h3]
    nlinarith [h1, h2]

theorem avg_bounds (l : List ℚ) (h0 : ∀ x ∈ l, 0 ≤ x) (h1 : ∀ x ∈ l, x ≤ 1) :
    0 ≤ avg l ∧ avg l ≤ 1 := by
  unfold avg
  split
  · norm_num
  · rename_i hlen
    have hpos : (0:ℚ) < l.length := by
      have : l.length ≠ 0 := hlen
      positivity
    constructor
    · exact div_nonneg (foldl_add_nonneg l 0 le_rfl h0) (le_of_lt hpos)
    · rw [div_le_one hpos]
      have := foldl_add_le l 0 1 h1
      simpa [sum] using this

/-- C7 (amended): `controlHealthPct` equals the rounded value of
`100 * mean(clamp(readiness - penaltyPerUca * ucaCount, 0, 1))` over the
controls, where `penaltyPerUca` is hard-coded to `0.06` — a value inside
the stated `0.05`–`0.1` range. (For the scenario controls the result is
therefore `64`, not `60`.) -/
theorem controlHealthPct_amended :
    (5/100 : ℚ) ≤ penaltyPerUca ∧ penaltyPerUca ≤ 1/10 ∧
    ∀ cs : List Control, cs ≠ [] →
      controlHealthPct cs =
        ((⌊100 * avg (cs.map (fun c => clamp (c.readiness - penaltyPerUca * c.ucaCount) 0 1)) + 1/2⌋ : ℤ) : ℚ) := by
  refine ⟨by norm_num [penaltyPerUca], by norm_num [penaltyPerUca], ?_⟩
  intro cs hne
  have hfun : (fun c : Control => clamp (c.readiness - c.ucaCount * penaltyPerUca) 0 1) =
      (fun c : Control => clamp (c.readiness - penaltyPerUca * c.ucaCount) 0 1) := by
    funext c
    rw [mul_comm]
  unfold controlHealthPct
  rw [if_neg (by simpa [List.length_eq_zero] using hne), hfun]
  unfold pct jsRound
  have hb := avg_bounds (cs.map (fun c => clamp (c.readiness - penaltyPerUca * c.ucaCount) 0 1))
    (by
      intro x hx
      obtain ⟨c, _, rfl⟩ := List.mem_map.mp hx
      exact lo_le_clamp _ _ _ (by norm_num))
    (by
      intro x hx
      obtain ⟨c, _, rfl⟩ := List.mem_map.mp hx
      exact clamp_le_hi _ _ _)
  rw [clamp_eq_of _ _ _ (by nlinarith [hb.1]) (by nlinarith [hb.2]), mul_comm]

/-- The scenario controls `[{readiness:0.8, ucaCount:0},
{readiness:0.6, ucaCount:2}]`. -/
def demoControls : List Control :=
  [⟨"CA", "Control A", 8/10, 0⟩, ⟨"CB", "Control B", 6/10, 2⟩]

/-- Counterexample for C7: with the scenario controls the code returns
`64` (penalty `0.06` per UCA), not the claimed `60` (penalty `0.1`). -/
theorem controlHealthPct_scenario_cex :
    controlHealthPct demoControls ≠ 60 ∧ controlHealthPct demoControls = 64 := by
  have h : controlHealthPct demoControls = 64 := by
    norm_num [controlHealthPct, demoControls, penaltyPerUca, pct, jsRound, avg, sum,
      clamp, min_def, max_def]
  exact ⟨by rw [h]; norm_num, h⟩

/-- Witness for C7 (amended): the amended formula applied to the scenario
controls. -/
theorem controlHealthPct_amended_witness :
    demoControls ≠ [] ∧
    controlHealthPct demoControls =
      ((⌊100 * avg (demoControls.map (fun c => clamp (c.readiness - penaltyPerUca * c.ucaCount) 0 1)) + 1/2⌋ : ℤ) : ℚ) := by
  refine ⟨by simp [demoControls], ?_⟩
  exact controlHealthPct_amended.2.2 demoControls (by simp [demoControls])

end RaceSafety
